import Mathlib

/-!
Verification development for the admin-dashboard authentication and
authorization subsystem.

The definitions below are a shallow embedding of the JavaScript source:

* `src/controllers/authController.js` — `signup`, `login`, `refreshTokenOp`
  (`exports.refreshToken`), `logout`, `setupAdmin`, `checkAdminSetup`,
  `generateAccessToken`, `generateRefreshToken`;
* `middleware/auth.js` — `authenticate`;
* `middleware/rbac.js` — `permit`;
* `models/User.js` — the user schema, its `pre('save')` password-hash hook
  (modelled by `MDoc.passwordDirty` and `saveDocData`) and `comparePassword`;
* `middleware/activityLogger.js` — `logActivity`, whose internal try/catch
  swallows every write failure (modelled by the `auditOk` flag: a failed
  write leaves the audit list unchanged and never raises).

JSON web tokens are modelled as records carrying their payload, the secret
they were signed with, and their absolute expiry instant; `jwtVerify`
mirrors `jwt.verify` (signature check, then expiry check).  Time is a `Nat`
measured in minutes, so `expiresIn: '15m'` becomes `15` and `'7d'` becomes
`10080`.  Bcrypt is kept abstract as a parameter `bhash : String → String`;
`bcrypt.compare(candidate, stored)` becomes `stored = bhash candidate`.
The Mongoose store is a `List User`; `findOne` is `List.find?` (first
match) and a document `save` replaces every record with the document's id.
-/

namespace AdminDashboard

/-- Roles from the `enum: ['user', 'manager', 'admin']` in the user schema. -/
inductive Role
  | user
  | manager
  | admin
deriving DecidableEq, Repr

/-- The two signing secrets: `process.env.JWT_SECRET` and
`process.env.REFRESH_TOKEN_SECRET`. -/
inductive SecretKey
  | jwtSecretKey
  | refreshSecretKey
deriving DecidableEq, Repr

/-- JWT payloads as built by the controller: access tokens carry
`{ id, role }`, refresh tokens carry `{ id }`. -/
inductive JwtPayload
  | accessPayload (id : Nat) (role : Role)
  | refreshPayload (id : Nat)
deriving DecidableEq, Repr

/-- The subject id of a decoded payload (`decoded.id` in the source). -/
def JwtPayload.subjectId : JwtPayload → Nat
  | .accessPayload i _ => i
  | .refreshPayload i => i

/-- A signed token: payload, signing secret, and absolute expiry instant
(issue instant plus `expiresIn`). -/
structure Token where
  payload : JwtPayload
  secret : SecretKey
  exp : Nat
deriving DecidableEq, Repr

/-- Errors thrown by `jwt.verify`. -/
inductive JwtError
  | jsonWebTokenError
  | tokenExpiredError
deriving DecidableEq, Repr

/-- Model of `jwt.sign(payload, secret, { expiresIn })` at instant `now`. -/
def jwtSign (p : JwtPayload) (s : SecretKey) (expiresIn now : Nat) : Token :=
  ⟨p, s, now + expiresIn⟩

/-- Model of `jwt.verify(token, secret)` at instant `now`: a token signed
with a different secret fails with `JsonWebTokenError`; an expired token
fails with `TokenExpiredError`; otherwise the payload is returned. -/
def jwtVerify (t : Token) (s : SecretKey) (now : Nat) : Except JwtError JwtPayload :=
  if t.secret ≠ s then .error .jsonWebTokenError
  else if t.exp ≤ now then .error .tokenExpiredError
  else .ok t.payload

/-- A persisted user record (`models/User.js`): `password` holds the
stored (hashed) credential, `refreshToken` the single active session
token or `null`. -/
structure User where
  id : Nat
  name : String
  email : String
  password : String
  role : Role
  refreshToken : Option Token
deriving DecidableEq, Repr

/-- The user collection. -/
abbrev Store := List User

/-- Model of `User.findOne({ email })`: first record with that email. -/
def findOneByEmail (st : Store) (email : String) : Option User :=
  st.find? (fun v => decide (v.email = email))

/-- Model of `User.findOne({ refreshToken })`: first record whose stored
refresh token equals the presented one. -/
def findOneByRefreshToken (st : Store) (rt : Token) : Option User :=
  st.find? (fun v => decide (v.refreshToken = some rt))

/-- Model of `User.findById(id)`. -/
def findById (st : Store) (id : Nat) : Option User :=
  st.find? (fun v => decide (v.id = id))

/-- Model of `User.findOne({ role: 'admin' })`. -/
def findOneAdmin (st : Store) : Option User :=
  st.find? (fun v => decide (v.role = Role.admin))

/-- Model of `User.countDocuments({ role: 'admin' })`. -/
def countAdminDocs (st : Store) : Nat :=
  (st.filter (fun v => decide (v.role = Role.admin))).length

/-- Persisting an existing document: `user.save()` writes the document
back over every record carrying its id. -/
def saveToStore (st : Store) (u : User) : Store :=
  st.map (fun v => if v.id = u.id then u else v)

/-- An in-memory Mongoose document together with its `isModified('password')`
dirty bit, which drives the `pre('save')` hook. -/
structure MDoc where
  data : User
  passwordDirty : Bool

/-- The `userSchema.pre('save')` hook: the password is bcrypt-hashed if and
only if the password path was modified; otherwise the document is persisted
as is. -/
def saveDocData (bhash : String → String) (d : MDoc) : User :=
  if d.passwordDirty then { d.data with password := bhash d.data.password } else d.data

/-- `new User({ name, email, password, role })`: a fresh document whose
password path is modified, so the first save hashes it.  `refreshToken`
defaults to `null`. -/
def newUserDoc (id : Nat) (name email password : String) (role : Role) : MDoc :=
  ⟨⟨id, name, email, password, role, none⟩, true⟩

/-- A document loaded from the store: no path is modified yet. -/
def loadDoc (u : User) : MDoc := ⟨u, false⟩

/-- Assignment `user.refreshToken = ...` on a document: it does not touch
the password path, so the dirty bit is unchanged. -/
def docSetRefreshToken (d : MDoc) (rt : Option Token) : MDoc :=
  ⟨{ d.data with refreshToken := rt }, d.passwordDirty⟩

/-- `user.comparePassword(candidate)`, i.e.
`bcrypt.compare(candidate, this.password)`. -/
def comparePassword (bhash : String → String) (u : User) (candidate : String) : Bool :=
  decide (u.password = bhash candidate)

/-- `expiresIn: '15m'` for access tokens, in minutes. -/
def accessTokenExpiry : Nat := 15

/-- `expiresIn: '7d'` for refresh tokens, in minutes. -/
def refreshTokenExpiry : Nat := 10080

/-- `generateAccessToken(user)`: signs `{ id, role }` with `JWT_SECRET`. -/
def generateAccessToken (u : User) (now : Nat) : Token :=
  jwtSign (.accessPayload u.id u.role) .jwtSecretKey accessTokenExpiry now

/-- `generateRefreshToken(user)`: signs `{ id }` with `REFRESH_TOKEN_SECRET`. -/
def generateRefreshToken (u : User) (now : Nat) : Token :=
  jwtSign (.refreshPayload u.id) .refreshSecretKey refreshTokenExpiry now

/-- Payloads of the `data` field of controller responses. -/
inductive RespData
  | tokens (accessToken refreshToken : Token) (userId : Nat) (name email : String) (role : Role)
  | accessOnly (accessToken : Token)
  | profileOnly (userId : Nat) (name email : String) (role : Role)
  | adminStatus (adminExists : Bool) (adminCount : Nat) (setupRequired : Bool)
deriving DecidableEq, Repr

/-- A JSON response: HTTP status plus the `{ success, message, code, data }`
envelope used by the controllers. -/
structure Resp where
  status : Nat
  success : Bool
  message : Option String
  code : Option String
  data : Option RespData
deriving DecidableEq, Repr

/-- An audit-log record written through `logActivity` (action name and the
acting or affected user id). -/
structure AuditEntry where
  action : String
  userId : Option Nat
deriving DecidableEq, Repr

/-- Model of `logActivity` in `middleware/activityLogger.js`: the
`ActivityLog.create` call sits inside a try/catch whose catch block only
writes to the console, so a failed write (`auditOk = false`) leaves the log
unchanged and never raises to the caller. -/
def logActivity (auditOk : Bool) (log : List AuditEntry) (e : AuditEntry) : List AuditEntry :=
  if auditOk then log ++ [e] else log

/-- The outcome of a controller call: the user store, the HTTP response,
and the audit log after the call. -/
structure OpOut where
  store : Store
  resp : Resp
  audit : List AuditEntry
deriving DecidableEq, Repr

/-- `exports.signup`: duplicate-email check, then create and save the new
user (the first save hashes the password via the pre-save hook). -/
def signup (bhash : String → String) (auditOk : Bool) (audit : List AuditEntry)
    (st : Store) (freshId : Nat) (name email password : String) : OpOut :=
  match findOneByEmail st email with
  | some _ =>
    ⟨st, ⟨400, false, some "Email already exists", some "EMAIL_EXISTS", none⟩, audit⟩
  | none =>
    let u := saveDocData bhash (newUserDoc freshId name email password .user)
    ⟨st ++ [u],
     ⟨201, true, some "User registered successfully", none,
      some (.profileOnly u.id u.name u.email u.role)⟩,
     logActivity auditOk audit ⟨"user-signup", some u.id⟩⟩

/-- `exports.login`: missing-credential check, email lookup, password
comparison, token issuance, overwrite of the stored refresh token, save. -/
def login (bhash : String → String) (auditOk : Bool) (audit : List AuditEntry)
    (st : Store) (email password : String) (now : Nat) : OpOut :=
  if email = "" ∨ password = "" then
    ⟨st, ⟨400, false, some "Email and password are required.", some "MISSING_CREDENTIALS", none⟩,
     logActivity auditOk audit ⟨"login-failed", none⟩⟩
  else
    match findOneByEmail st email with
    | none =>
      ⟨st, ⟨401, false, some "Invalid credentials.", some "INVALID_CREDENTIALS", none⟩,
       logActivity auditOk audit ⟨"login-failed", none⟩⟩
    | some u =>
      if comparePassword bhash u password then
        let accessToken := generateAccessToken u now
        let refreshTok := generateRefreshToken u now
        let saved := saveDocData bhash (docSetRefreshToken (loadDoc u) (some refreshTok))
        ⟨saveToStore st saved,
         ⟨200, true, some "Login successful.", none,
          some (.tokens accessToken refreshTok u.id u.name u.email u.role)⟩,
         logActivity auditOk audit ⟨"login-success", some u.id⟩⟩
      else
        ⟨st, ⟨401, false, some "Invalid credentials.", some "INVALID_CREDENTIALS", none⟩,
         logActivity auditOk audit ⟨"login-failed", some u.id⟩⟩

/-- `exports.refreshToken`: missing-token check, store-membership lookup by
the presented token, then cryptographic verification; on verification
failure the stored token is cleared (defensive revocation); on success a
new access token is issued and nothing is saved. -/
def refreshTokenOp (bhash : String → String) (auditOk : Bool) (audit : List AuditEntry)
    (st : Store) (presented : Option Token) (now : Nat) : OpOut :=
  match presented with
  | none =>
    ⟨st, ⟨401, false, some "Refresh token required", some "MISSING_REFRESH_TOKEN", none⟩, audit⟩
  | some rt =>
    match findOneByRefreshToken st rt with
    | none =>
      ⟨st, ⟨403, false, some "Invalid refresh token", some "INVALID_REFRESH_TOKEN", none⟩, audit⟩
    | some u =>
      match jwtVerify rt .refreshSecretKey now with
      | .ok _ =>
        ⟨st, ⟨200, true, none, none, some (.accessOnly (generateAccessToken u now))⟩,
         logActivity auditOk audit ⟨"token-refresh", some u.id⟩⟩
      | .error _ =>
        ⟨saveToStore st (saveDocData bhash (docSetRefreshToken (loadDoc u) none)),
         ⟨403, false, some "Invalid or expired refresh token", some "INVALID_REFRESH_TOKEN", none⟩,
         audit⟩

/-- `exports.logout`: missing-token check, store-membership lookup, then
clearing of the stored refresh token. -/
def logout (bhash : String → String) (auditOk : Bool) (audit : List AuditEntry)
    (st : Store) (presented : Option Token) : OpOut :=
  match presented with
  | none =>
    ⟨st, ⟨400, false, some "Refresh token is required for logout.", some "MISSING_REFRESH_TOKEN", none⟩,
     audit⟩
  | some rt =>
    match findOneByRefreshToken st rt with
    | none =>
      ⟨st,
       ⟨401, false, some "Invalid refresh token. User already logged out or token expired.",
        some "INVALID_REFRESH_TOKEN", none⟩,
       audit⟩
    | some u =>
      ⟨saveToStore st (saveDocData bhash (docSetRefreshToken (loadDoc u) none)),
       ⟨200, true, some "Logout successful. You have been securely logged out.", none, none⟩,
       logActivity auditOk audit ⟨"logout", some u.id⟩⟩

/-- `exports.setupAdmin`: the admin-existence check runs first, then the
missing-field check, then the duplicate-email check; on success the admin
user is saved (hashing the password), tokens are issued, and a second save
persists the stored refresh token (the password path is no longer modified,
so the hook does not rehash). -/
def setupAdmin (bhash : String → String) (auditOk : Bool) (audit : List AuditEntry)
    (st : Store) (freshId : Nat) (name email password : String) (now : Nat) : OpOut :=
  match findOneAdmin st with
  | some _ =>
    ⟨st,
     ⟨403, false,
      some "Admin user already exists. This endpoint is only available during initial setup.",
      some "ADMIN_EXISTS", none⟩,
     audit⟩
  | none =>
    if name = "" ∨ email = "" ∨ password = "" then
      ⟨st, ⟨400, false, some "Name, email, and password are required.", some "MISSING_FIELDS", none⟩,
       audit⟩
    else
      match findOneByEmail st email with
      | some _ =>
        ⟨st, ⟨400, false, some "User with this email already exists.", some "EMAIL_EXISTS", none⟩,
         audit⟩
      | none =>
        let u1 := saveDocData bhash (newUserDoc freshId name email password .admin)
        let audit1 := logActivity auditOk audit ⟨"admin-setup", some u1.id⟩
        let accessToken := generateAccessToken u1 now
        let refreshTok := generateRefreshToken u1 now
        let u2 := saveDocData bhash (docSetRefreshToken (loadDoc u1) (some refreshTok))
        ⟨saveToStore (st ++ [u1]) u2,
         ⟨201, true, some "Admin user created successfully! You are now logged in.", none,
          some (.tokens accessToken refreshTok u1.id u1.name u1.email u1.role)⟩,
         audit1⟩

/-- `exports.checkAdminSetup`: counts admin users and reports
`adminExists = adminCount > 0` and `setupRequired = adminCount === 0`. -/
def checkAdminSetup (st : Store) : Resp :=
  let adminCount := countAdminDocs st
  ⟨200, true, none, none,
   some (.adminStatus (decide (adminCount > 0)) adminCount (decide (adminCount = 0)))⟩

/-- Result of the `authenticate` middleware: either the loaded user is
attached to the request, or the request is rejected with a status, a
message and a code. -/
inductive AuthOut
  | ok (u : User)
  | err (status : Nat) (message code : String)
deriving DecidableEq, Repr

/-- The `authenticate` middleware (`middleware/auth.js`).  The header
is `none` when missing or not of the `Bearer ...` shape, `some none` when
the `Bearer` prefix carries no token, and `some (some tok)` otherwise.
The source also excludes the password field from the attached user
(`.select('-password')`); that projection does not affect any decision
made here and the full record is attached in the model. -/
def authenticate (st : Store) (header : Option (Option Token)) (now : Nat) : AuthOut :=
  match header with
  | none => .err 401 "Authorization header missing or malformed." "MISSING_AUTH_HEADER"
  | some none => .err 401 "Token not provided." "MISSING_TOKEN"
  | some (some tok) =>
    match jwtVerify tok .jwtSecretKey now with
    | .error .jsonWebTokenError => .err 401 "Invalid token." "INVALID_TOKEN"
    | .error .tokenExpiredError => .err 401 "Token expired." "TOKEN_EXPIRED"
    | .ok decoded =>
      match findById st decoded.subjectId with
      | none => .err 401 "User not found or account deleted." "USER_NOT_FOUND"
      | some u =>
        if u.refreshToken = none then
          .err 401 "Session expired. Please login again." "SESSION_EXPIRED"
        else .ok u

/-- Result of the `permit` RBAC middleware: pass the request through to the
next handler, or deny with a status and the payload fields the source puts
in the JSON body (`required` and `current` are present only on the 403). -/
inductive PermitOut
  | next
  | deny (status : Nat) (message : String) (required : Option (List Role)) (current : Option Role)
deriving DecidableEq, Repr

/-- The `permit(...roles)` middleware (`middleware/rbac.js`): 401 when no
identity was attached upstream, 403 naming the allowed set and the actual
role when the role is not allowed, otherwise `next()`. -/
def permit (roles : List Role) (reqUser : Option User) : PermitOut :=
  match reqUser with
  | none => .deny 401 "Authentication required." none none
  | some u =>
    if u.role ∈ roles then .next
    else .deny 403 "Access denied. Insufficient permissions." (some roles) (some u.role)

/-!
Reachable-state invariants.  Every store the running system can reach has
pairwise distinct record ids (Mongoose ObjectIds), and every stored refresh
token was produced by `generateRefreshToken` for its holder, so its payload
names the holder's id and it is signed with the refresh secret.
-/

/-- Record ids are pairwise distinct. -/
def IdsNodup (st : Store) : Prop := (st.map User.id).Nodup

/-- The stored refresh token of a record, when present, carries the
record's own id and the refresh secret. -/
def ownsStoredToken (u : User) : Bool :=
  match u.refreshToken with
  | none => true
  | some t => decide (t.payload = .refreshPayload u.id ∧ t.secret = .refreshSecretKey)

/-- Every record's stored refresh token belongs to that record. -/
def TokensOwned (st : Store) : Prop := ∀ u ∈ st, ownsStoredToken u = true

/-- The reachable-state invariant used below. -/
def StoreOk (st : Store) : Prop := IdsNodup st ∧ TokensOwned st

instance (st : Store) : Decidable (IdsNodup st) :=
  inferInstanceAs (Decidable (st.map User.id).Nodup)

instance (st : Store) : Decidable (TokensOwned st) :=
  inferInstanceAs (Decidable (∀ u ∈ st, ownsStoredToken u = true))

instance (st : Store) : Decidable (StoreOk st) :=
  inferInstanceAs (Decidable (IdsNodup st ∧ TokensOwned st))

theorem ownsStoredToken_spec {u : User} {t : Token}
    (h : ownsStoredToken u = true) (ht : u.refreshToken = some t) :
    t.payload = .refreshPayload u.id ∧ t.secret = .refreshSecretKey := by
  unfold ownsStoredToken at h
  rw [ht] at h
  exact of_decide_eq_true h

/-- Specialization of `List.find?_some` that keeps the predicate shape
intact for clean unification. -/
theorem find?_pred {α : Type} {p : α → Bool} {l : List α} {a : α}
    (h : l.find? p = some a) : p a = true :=
  List.find?_some h

/-- Saving a document with an unchanged id leaves the id column of the
store unchanged. -/
theorem saveToStore_map_id (st : Store) (u : User) :
    (saveToStore st u).map User.id = st.map User.id := by
  unfold saveToStore
  rw [List.map_map]
  apply List.map_congr_left
  intro v _
  by_cases h : v.id = u.id
  · simp [Function.comp, h]
  · simp [Function.comp, h]

theorem idsNodup_saveToStore {st : Store} (u : User) (h : IdsNodup st) :
    IdsNodup (saveToStore st u) := by
  unfold IdsNodup
  rw [saveToStore_map_id]
  exact h

/-- Saving a record that still owns its token preserves token ownership. -/
theorem tokensOwned_saveToStore {st : Store} {u : User}
    (h : TokensOwned st) (hu : ownsStoredToken u = true) :
    TokensOwned (saveToStore st u) := by
  intro v hv
  unfold saveToStore at hv
  rw [List.mem_map] at hv
  obtain ⟨w, hw, rfl⟩ := hv
  by_cases hid : w.id = u.id
  · simp only [hid, if_true]
    exact hu
  · simp only [hid, if_false]
    exact h w hw

/-- After saving a replacement for a record of the store, `findById` on
that id returns the replacement. -/
theorem findById_saveToStore {st : Store} {u u2 : User}
    (hmem : u ∈ st) (hid : u2.id = u.id) :
    findById (saveToStore st u2) u.id = some u2 := by
  induction st with
  | nil => cases hmem
  | cons v tl ih =>
    by_cases hv : v.id = u2.id
    · unfold findById saveToStore
      rw [List.map_cons, if_pos hv]
      exact List.find?_cons_of_pos _ (by simp [hid])
    · have hvne : v.id ≠ u.id := by rw [← hid]; exact hv
      have hmem2 : u ∈ tl := by
        rcases List.mem_cons.mp hmem with h | h
        · subst h; exact absurd rfl hvne
        · exact h
      unfold findById saveToStore
      rw [List.map_cons, if_neg hv]
      rw [List.find?_cons_of_neg _ (by simp [hvne])]
      exact ih hmem2

/-- If the record found by a refresh token is overwritten with a record no
longer holding that token, no record of the store holds the token any
more (token ownership rules out a second holder). -/
theorem findOneByRefreshToken_saveToStore_none {st : Store} {u u2 : User} {rt : Token}
    (hown : TokensOwned st)
    (hfind : findOneByRefreshToken st rt = some u)
    (hid : u2.id = u.id)
    (hcleared : u2.refreshToken ≠ some rt) :
    findOneByRefreshToken (saveToStore st u2) rt = none := by
  have hfind2 : st.find? (fun v => decide (v.refreshToken = some rt)) = some u := hfind
  have hu : u.refreshToken = some rt := by
    have hpu := find?_pred hfind2
    simpa using hpu
  have humem : u ∈ st := List.mem_of_find?_eq_some hfind2
  unfold findOneByRefreshToken
  rw [List.find?_eq_none]
  intro v hv
  unfold saveToStore at hv
  rw [List.mem_map] at hv
  obtain ⟨w, hw, rfl⟩ := hv
  by_cases hwid : w.id = u2.id
  · simp only [hwid, if_true]
    simpa using hcleared
  · simp only [hwid, if_false]
    intro hcontra
    have hwrt : w.refreshToken = some rt := of_decide_eq_true hcontra
    have h1 := ownsStoredToken_spec (hown w hw) hwrt
    have h2 := ownsStoredToken_spec (hown u humem) hu
    have hwu : w.id = u.id :=
      JwtPayload.refreshPayload.inj (h1.left.symm.trans h2.left)
    exact hwid (hwu.trans hid.symm)

/-- After a member of the store is overwritten with a record holding a
token owned by that record, the token lookup finds exactly the
replacement (token ownership rules out an earlier holder). -/
theorem findOneByRefreshToken_saveToStore_self {st : Store} {u u2 : User} {rt : Token}
    (hown : TokensOwned st)
    (hmem : u ∈ st)
    (hid : u2.id = u.id)
    (hrt : u2.refreshToken = some rt)
    (hpay : rt.payload = .refreshPayload u2.id) :
    findOneByRefreshToken (saveToStore st u2) rt = some u2 := by
  induction st with
  | nil => cases hmem
  | cons v tl ih =>
    by_cases hv : v.id = u2.id
    · unfold findOneByRefreshToken saveToStore
      rw [List.map_cons, if_pos hv]
      exact List.find?_cons_of_pos _ (by simp [hrt])
    · have hvne : v.id ≠ u.id := by rw [← hid]; exact hv
      have hmem2 : u ∈ tl := by
        rcases List.mem_cons.mp hmem with h | h
        · subst h; exact absurd rfl hvne
        · exact h
      have hvrt : ¬ (v.refreshToken = some rt) := by
        intro hcontra
        have h1 := ownsStoredToken_spec (hown v (List.mem_cons_self v tl)) hcontra
        have hvid : v.id = u2.id :=
          JwtPayload.refreshPayload.inj (h1.left.symm.trans hpay)
        exact hv hvid
      have hownTl : TokensOwned tl := fun w hw => hown w (List.mem_cons_of_mem v hw)
      unfold findOneByRefreshToken saveToStore
      rw [List.map_cons, if_neg hv]
      rw [List.find?_cons_of_neg _ (by simp [hvrt])]
      exact ih hownTl hmem2

/-- After a member found by email is overwritten with a record of the same
id and email, the email lookup finds the replacement (distinct ids keep
the earlier records, which fail the email test, unchanged). -/
theorem findOneByEmail_saveToStore {st : Store} {u u2 : User} {email : String}
    (hids : IdsNodup st)
    (hfind : findOneByEmail st email = some u)
    (hid : u2.id = u.id)
    (hemail : u2.email = u.email) :
    findOneByEmail (saveToStore st u2) email = some u2 := by
  induction st with
  | nil => simp [findOneByEmail] at hfind
  | cons v tl ih =>
    by_cases hv : v.email = email
    · have hfind2 : some v = some u := by
        unfold findOneByEmail at hfind
        rwa [List.find?_cons_of_pos _ (by simp [hv])] at hfind
      injection hfind2 with hvu
      unfold findOneByEmail saveToStore
      rw [List.map_cons, if_pos (by rw [hid, ← hvu])]
      exact List.find?_cons_of_pos _ (by simp [hemail, ← hvu, hv])
    · have hfind2 : tl.find? (fun w => decide (w.email = email)) = some u := by
        unfold findOneByEmail at hfind
        rwa [List.find?_cons_of_neg _ (by simp [hv])] at hfind
      have humem : u ∈ tl := List.mem_of_find?_eq_some hfind2
      have hvne : v.id ≠ u.id := by
        intro hcontra
        unfold IdsNodup at hids
        rw [List.map_cons, List.nodup_cons] at hids
        exact hids.left (hcontra ▸ List.mem_map_of_mem User.id humem)
      have hidsTl : IdsNodup tl := by
        unfold IdsNodup at hids ⊢
        rw [List.map_cons, List.nodup_cons] at hids
        exact hids.right
      unfold findOneByEmail saveToStore
      rw [List.map_cons, if_neg (by rw [hid]; exact hvne)]
      rw [List.find?_cons_of_neg _ (by simp [hv])]
      exact ih hidsTl hfind2

/-!
Shape lemmas for the controller operations.
-/

/-- Outcome of a successful login: the store holds the user with the fresh
refresh token (password untouched, since the password path is not dirty),
and the response carries both tokens and the public profile. -/
theorem login_success_eq (bhash : String → String) (auditOk : Bool)
    (audit : List AuditEntry) (st : Store) (email password : String) (now : Nat) (u : User)
    (he : email ≠ "") (hp : password ≠ "")
    (hfind : findOneByEmail st email = some u)
    (hpw : comparePassword bhash u password = true) :
    login bhash auditOk audit st email password now =
      ⟨saveToStore st { u with refreshToken := some (generateRefreshToken u now) },
       ⟨200, true, some "Login successful.", none,
        some (.tokens (generateAccessToken u now) (generateRefreshToken u now)
          u.id u.name u.email u.role)⟩,
       logActivity auditOk audit ⟨"login-success", some u.id⟩⟩ := by
  simp [login, he, hp, hfind, hpw, saveDocData, docSetRefreshToken, loadDoc]

/-- Outcome of a successful logout: the matching record's stored refresh
token is cleared. -/
theorem logout_success_eq (bhash : String → String) (auditOk : Bool)
    (audit : List AuditEntry) (st : Store) (rt : Token) (u : User)
    (hfind : findOneByRefreshToken st rt = some u) :
    logout bhash auditOk audit st (some rt) =
      ⟨saveToStore st { u with refreshToken := none },
       ⟨200, true, some "Logout successful. You have been securely logged out.", none, none⟩,
       logActivity auditOk audit ⟨"logout", some u.id⟩⟩ := by
  simp [logout, hfind, saveDocData, docSetRefreshToken, loadDoc]

/-- A freshly issued refresh token verifies against the refresh secret
before its expiry instant. -/
theorem jwtVerify_generateRefreshToken (u : User) (t1 now : Nat)
    (h : now < t1 + refreshTokenExpiry) :
    jwtVerify (generateRefreshToken u t1) .refreshSecretKey now =
      .ok (.refreshPayload u.id) := by
  have hne : ¬ (t1 + refreshTokenExpiry ≤ now) := by omega
  simp [generateRefreshToken, jwtSign, jwtVerify, hne]

/-- A freshly issued access token verifies against the access secret
before its expiry instant. -/
theorem jwtVerify_generateAccessToken (u : User) (t1 now : Nat)
    (h : now < t1 + accessTokenExpiry) :
    jwtVerify (generateAccessToken u t1) .jwtSecretKey now =
      .ok (.accessPayload u.id u.role) := by
  have hne : ¬ (t1 + accessTokenExpiry ≤ now) := by omega
  simp [generateAccessToken, jwtSign, jwtVerify, hne]

/-- Saving a record whose id is fresh for the prefix turns the appended
singleton into the replacement and leaves the prefix unchanged. -/
theorem saveToStore_append_fresh {st : Store} {u1 u2 : User}
    (hfresh : ∀ v ∈ st, v.id ≠ u2.id) (hid : u1.id = u2.id) :
    saveToStore (st ++ [u1]) u2 = st ++ [u2] := by
  unfold saveToStore
  rw [List.map_append]
  congr 1
  · conv_rhs => rw [← List.map_id st]
    apply List.map_congr_left
    intro v hv
    simp [hfresh v hv]
  · simp [hid]

/-!
Claim theorems.
-/

/-- Claim C10: `checkAdminSetup` always succeeds with status 200 and
returns `adminExists = (adminCount > 0)` and `setupRequired = (adminCount = 0)`
computed from the same count, so the two flags are always logical
negations of each other. -/
theorem checkAdminSetup_total_and_consistent (st : Store) :
    checkAdminSetup st =
      ⟨200, true, none, none,
       some (.adminStatus (decide (countAdminDocs st > 0)) (countAdminDocs st)
         (decide (countAdminDocs st = 0)))⟩ ∧
    decide (countAdminDocs st > 0) = !(decide (countAdminDocs st = 0)) := by
  refine ⟨rfl, ?_⟩
  by_cases h : countAdminDocs st = 0
  · simp [h]
  · simp [h, Nat.pos_of_ne_zero h]

/-- Claim C8: the RBAC gate denies with 401 when no identity is attached,
denies with 403 naming both the allowed set and the actual role when the
role is not allowed, passes through otherwise, and in particular the
allowed set consisting of admin rejects a manager with a payload naming
both roles. -/
theorem permit_gate_behaviour (roles : List Role) (u : User) :
    permit roles none = .deny 401 "Authentication required." none none ∧
    (u.role ∉ roles →
      permit roles (some u) =
        .deny 403 "Access denied. Insufficient permissions." (some roles) (some u.role)) ∧
    (u.role ∈ roles → permit roles (some u) = .next) ∧
    (u.role = .manager →
      permit [.admin] (some u) =
        .deny 403 "Access denied. Insufficient permissions."
          (some [.admin]) (some .manager)) := by
  refine ⟨rfl, ?_, ?_, ?_⟩
  · intro h
    simp [permit, h]
  · intro h
    simp [permit, h]
  · intro h
    simp [permit, h]

/-- Witness for C8 at concrete inputs: a manager is denied by the
admin-only gate with the payload naming both roles, an admin passes, a
user outside the allowed set is denied, and a missing identity yields
401. -/
theorem permit_gate_behaviour_witness :
    permit [Role.admin] (some ⟨1, "M", "m@x.com", "pw", Role.manager, none⟩) =
      .deny 403 "Access denied. Insufficient permissions."
        (some [Role.admin]) (some Role.manager) ∧
    permit [Role.admin] (some ⟨2, "A", "a@x.com", "pw", Role.admin, none⟩) = .next ∧
    permit [Role.admin] (some ⟨3, "U", "u@x.com", "pw", Role.user, none⟩) =
      .deny 403 "Access denied. Insufficient permissions."
        (some [Role.admin]) (some Role.user) ∧
    permit [Role.admin] none = .deny 401 "Authentication required." none none := by
  refine ⟨?_, ?_, ?_, ?_⟩
  · exact (permit_gate_behaviour [Role.admin]
      ⟨1, "M", "m@x.com", "pw", Role.manager, none⟩).2.2.2 rfl
  · exact (permit_gate_behaviour [Role.admin]
      ⟨2, "A", "a@x.com", "pw", Role.admin, none⟩).2.2.1 (by decide)
  · exact (permit_gate_behaviour [Role.admin]
      ⟨3, "U", "u@x.com", "pw", Role.user, none⟩).2.1 (by decide)
  · exact (permit_gate_behaviour [Role.admin]
      ⟨4, "X", "x@x.com", "pw", Role.user, none⟩).1

/-- Claim C7: for each of the five Session Manager operations, whether the
audit-log write succeeds or fails never changes the resulting store or the
HTTP response — `logActivity` swallows its failures, so audit logging is
best-effort and never alters the originating request. -/
theorem audit_failure_never_changes_outcome (bhash : String → String) :
    (∀ (a b : Bool) audit st freshId name email password,
      (signup bhash a audit st freshId name email password).store =
        (signup bhash b audit st freshId name email password).store ∧
      (signup bhash a audit st freshId name email password).resp =
        (signup bhash b audit st freshId name email password).resp) ∧
    (∀ (a b : Bool) audit st email password now,
      (login bhash a audit st email password now).store =
        (login bhash b audit st email password now).store ∧
      (login bhash a audit st email password now).resp =
        (login bhash b audit st email password now).resp) ∧
    (∀ (a b : Bool) audit st presented now,
      (refreshTokenOp bhash a audit st presented now).store =
        (refreshTokenOp bhash b audit st presented now).store ∧
      (refreshTokenOp bhash a audit st presented now).resp =
        (refreshTokenOp bhash b audit st presented now).resp) ∧
    (∀ (a b : Bool) audit st presented,
      (logout bhash a audit st presented).store =
        (logout bhash b audit st presented).store ∧
      (logout bhash a audit st presented).resp =
        (logout bhash b audit st presented).resp) ∧
    (∀ (a b : Bool) audit st freshId name email password now,
      (setupAdmin bhash a audit st freshId name email password now).store =
        (setupAdmin bhash b audit st freshId name email password now).store ∧
      (setupAdmin bhash a audit st freshId name email password now).resp =
        (setupAdmin bhash b audit st freshId name email password now).resp) := by
  refine ⟨?_, ?_, ?_, ?_, ?_⟩
  · intro a b audit st freshId name email password
    cases h : findOneByEmail st email <;> simp [signup, h]
  · intro a b audit st email password now
    by_cases hmc : email = "" ∨ password = ""
    · simp [login, hmc]
    · cases h : findOneByEmail st email with
      | none => simp [login, hmc, h]
      | some u => cases hc : comparePassword bhash u password <;> simp [login, hmc, h, hc]
  · intro a b audit st presented now
    cases presented with
    | none => simp [refreshTokenOp]
    | some rt =>
      cases h : findOneByRefreshToken st rt with
      | none => simp [refreshTokenOp, h]
      | some u =>
        cases hv : jwtVerify rt .refreshSecretKey now with
        | ok p => simp [refreshTokenOp, h, hv]
        | error e => simp [refreshTokenOp, h, hv]
  · intro a b audit st presented
    cases presented with
    | none => simp [logout]
    | some rt => cases h : findOneByRefreshToken st rt <;> simp [logout, h]
  · intro a b audit st freshId name email password now
    cases h : findOneAdmin st with
    | some x => simp [setupAdmin, h]
    | none =>
      by_cases hmc : name = "" ∨ email = "" ∨ password = ""
      · simp [setupAdmin, h, hmc]
      · cases hm : findOneByEmail st email <;> simp [setupAdmin, h, hmc, hm]

/-- Claim C3: a refresh whose presented token matches no stored refresh
token fails with 403 Invalid refresh token regardless of the token itself
(the store-membership check runs before any cryptographic verification,
and the store is untouched); when a user matches but verification against
the refresh secret fails, the user's stored token is cleared and the call
fails with 403 Invalid or expired refresh token. -/
theorem refresh_membership_before_verify (bhash : String → String) (auditOk : Bool)
    (audit : List AuditEntry) :
    (∀ (st : Store) (rt : Token) (now : Nat),
      findOneByRefreshToken st rt = none →
      refreshTokenOp bhash auditOk audit st (some rt) now =
        ⟨st, ⟨403, false, some "Invalid refresh token", some "INVALID_REFRESH_TOKEN", none⟩,
         audit⟩) ∧
    (∀ (st : Store) (rt : Token) (u : User) (now : Nat) (e : JwtError),
      findOneByRefreshToken st rt = some u →
      jwtVerify rt .refreshSecretKey now = .error e →
      refreshTokenOp bhash auditOk audit st (some rt) now =
        ⟨saveToStore st { u with refreshToken := none },
         ⟨403, false, some "Invalid or expired refresh token",
          some "INVALID_REFRESH_TOKEN", none⟩,
         audit⟩) := by
  constructor
  · intro st rt now h
    simp [refreshTokenOp, h]
  · intro st rt u now e h hv
    simp [refreshTokenOp, h, hv, saveDocData, docSetRefreshToken, loadDoc]

/-- Witness for C3 at concrete inputs: a validly signed, unexpired refresh
token unknown to the store is rejected by the membership check, and a
stored token that fails signature verification is rejected with the
defensive clear of the stored token. -/
theorem refresh_membership_before_verify_witness :
    refreshTokenOp (fun s => s) true [] []
      (some ⟨.refreshPayload 1, .refreshSecretKey, 10080⟩) 0 =
      ⟨[], ⟨403, false, some "Invalid refresh token", some "INVALID_REFRESH_TOKEN", none⟩,
       []⟩ ∧
    refreshTokenOp (fun s => s) true []
      [⟨1, "A", "a@x.com", "pw", Role.user, some ⟨.refreshPayload 1, .jwtSecretKey, 10080⟩⟩]
      (some ⟨.refreshPayload 1, .jwtSecretKey, 10080⟩) 0 =
      ⟨[⟨1, "A", "a@x.com", "pw", Role.user, none⟩],
       ⟨403, false, some "Invalid or expired refresh token",
        some "INVALID_REFRESH_TOKEN", none⟩,
       []⟩ := by
  constructor
  · exact (refresh_membership_before_verify (fun s => s) true []).1 []
      ⟨.refreshPayload 1, .refreshSecretKey, 10080⟩ 0 (by decide)
  · have h := (refresh_membership_before_verify (fun s => s) true []).2
      [⟨1, "A", "a@x.com", "pw", Role.user, some ⟨.refreshPayload 1, .jwtSecretKey, 10080⟩⟩]
      ⟨.refreshPayload 1, .jwtSecretKey, 10080⟩
      ⟨1, "A", "a@x.com", "pw", Role.user, some ⟨.refreshPayload 1, .jwtSecretKey, 10080⟩⟩
      0 .jsonWebTokenError (by decide) rfl
    exact h.trans (by decide)

/-- Claim C5: a login for an unknown email and a login for a known email
with a failing password yield literally equal responses — status 401 and
code INVALID_CREDENTIALS — so the two failure causes are indistinguishable
to the caller. -/
theorem login_failure_modes_indistinguishable
    (bhash : String → String) (a1 a2 : Bool) (audit1 audit2 : List AuditEntry)
    (stA stB : Store) (emailA pwA emailB pwB : String) (n1 n2 : Nat) (u : User)
    (heA : emailA ≠ "") (hpA : pwA ≠ "") (heB : emailB ≠ "") (hpB : pwB ≠ "")
    (hnone : findOneByEmail stA emailA = none)
    (hfound : findOneByEmail stB emailB = some u)
    (hbad : comparePassword bhash u pwB = false) :
    (login bhash a1 audit1 stA emailA pwA n1).resp =
      (login bhash a2 audit2 stB emailB pwB n2).resp ∧
    (login bhash a1 audit1 stA emailA pwA n1).resp.status = 401 ∧
    (login bhash a1 audit1 stA emailA pwA n1).resp.code = some "INVALID_CREDENTIALS" := by
  have h1 : (login bhash a1 audit1 stA emailA pwA n1).resp =
      ⟨401, false, some "Invalid credentials.", some "INVALID_CREDENTIALS", none⟩ := by
    simp [login, heA, hpA, hnone]
  have h2 : (login bhash a2 audit2 stB emailB pwB n2).resp =
      ⟨401, false, some "Invalid credentials.", some "INVALID_CREDENTIALS", none⟩ := by
    simp [login, heB, hpB, hfound, hbad]
  exact ⟨h1.trans h2.symm, by rw [h1], by rw [h1]⟩

/-- Witness for C5 at concrete inputs: unknown email against an empty
store versus wrong password against a store holding the account. -/
theorem login_failure_modes_indistinguishable_witness :
    (login (fun s => s) true [] [] "ghost@x.com" "whatever" 0).resp =
      (login (fun s => s) false []
        [⟨1, "Ana", "ana@x.com", "secret", Role.user, none⟩] "ana@x.com" "wrong" 7).resp ∧
    (login (fun s => s) true [] [] "ghost@x.com" "whatever" 0).resp.status = 401 ∧
    (login (fun s => s) true [] [] "ghost@x.com" "whatever" 0).resp.code =
      some "INVALID_CREDENTIALS" :=
  login_failure_modes_indistinguishable (fun s => s) true false [] []
    [] [⟨1, "Ana", "ana@x.com", "secret", Role.user, none⟩]
    "ghost@x.com" "whatever" "ana@x.com" "wrong" 0 7
    ⟨1, "Ana", "ana@x.com", "secret", Role.user, none⟩
    (by decide) (by decide) (by decide) (by decide)
    (by decide) (by decide) (by decide)

/-- Claim C9: a successful login changes only the refreshToken field of the
matched record — id, name, email, role and the stored password hash are
carried over unchanged, because the pre-save hook sees an unmodified
password path and does not rehash. -/
theorem login_success_frame
    (bhash : String → String) (auditOk : Bool) (audit : List AuditEntry)
    (st : Store) (email password : String) (now : Nat) (u : User)
    (he : email ≠ "") (hp : password ≠ "")
    (hfind : findOneByEmail st email = some u)
    (hpw : comparePassword bhash u password = true) :
    (login bhash auditOk audit st email password now).store =
      saveToStore st
        ⟨u.id, u.name, u.email, u.password, u.role, some (generateRefreshToken u now)⟩ ∧
    findById (login bhash auditOk audit st email password now).store u.id =
      some ⟨u.id, u.name, u.email, u.password, u.role, some (generateRefreshToken u now)⟩ := by
  have hstore : (login bhash auditOk audit st email password now).store =
      saveToStore st
        ⟨u.id, u.name, u.email, u.password, u.role, some (generateRefreshToken u now)⟩ := by
    rw [login_success_eq bhash auditOk audit st email password now u he hp hfind hpw]
  have hfind2 : st.find? (fun v => decide (v.email = email)) = some u := hfind
  have hmem : u ∈ st := List.mem_of_find?_eq_some hfind2
  refine ⟨hstore, ?_⟩
  rw [hstore]
  exact findById_saveToStore hmem rfl

/-- Witness for C9 at a concrete store: after login the record keeps its
name, email, role and password hash, gaining only the refresh token. -/
theorem login_success_frame_witness :
    (login (fun s => s) true [] [⟨1, "Ana", "ana@x.com", "secret", Role.user, none⟩]
      "ana@x.com" "secret" 3).store =
      saveToStore [⟨1, "Ana", "ana@x.com", "secret", Role.user, none⟩]
        ⟨1, "Ana", "ana@x.com", "secret", Role.user,
         some (generateRefreshToken ⟨1, "Ana", "ana@x.com", "secret", Role.user, none⟩ 3)⟩ ∧
    findById (login (fun s => s) true []
      [⟨1, "Ana", "ana@x.com", "secret", Role.user, none⟩] "ana@x.com" "secret" 3).store 1 =
      some ⟨1, "Ana", "ana@x.com", "secret", Role.user,
        some (generateRefreshToken ⟨1, "Ana", "ana@x.com", "secret", Role.user, none⟩ 3)⟩ :=
  login_success_frame (fun s => s) true []
    [⟨1, "Ana", "ana@x.com", "secret", Role.user, none⟩] "ana@x.com" "secret" 3
    ⟨1, "Ana", "ana@x.com", "secret", Role.user, none⟩
    (by decide) (by decide) (by decide) (by decide)

/-- Claim C6: `setupAdmin` fails with 403 AdminExists whenever an admin
user exists, regardless of the supplied credentials (the admin-existence
check precedes field and duplicate-email validation); with no admin, valid
fields and an unused email it appends an admin user carrying a freshly
issued refresh token and returns both tokens with status 201. -/
theorem setupAdmin_first_admin_only (bhash : String → String) (auditOk : Bool)
    (audit : List AuditEntry) :
    (∀ (st : Store) (freshId : Nat) (name email password : String) (now : Nat) (a : User),
      findOneAdmin st = some a →
      setupAdmin bhash auditOk audit st freshId name email password now =
        ⟨st,
         ⟨403, false,
          some "Admin user already exists. This endpoint is only available during initial setup.",
          some "ADMIN_EXISTS", none⟩,
         audit⟩) ∧
    (∀ (st : Store) (freshId : Nat) (name email password : String) (now : Nat),
      findOneAdmin st = none → name ≠ "" → email ≠ "" → password ≠ "" →
      findOneByEmail st email = none → (∀ v ∈ st, v.id ≠ freshId) →
      setupAdmin bhash auditOk audit st freshId name email password now =
        ⟨st ++ [⟨freshId, name, email, bhash password, .admin,
                 some (jwtSign (.refreshPayload freshId) .refreshSecretKey refreshTokenExpiry now)⟩],
         ⟨201, true, some "Admin user created successfully! You are now logged in.", none,
          some (.tokens
            (jwtSign (.accessPayload freshId .admin) .jwtSecretKey accessTokenExpiry now)
            (jwtSign (.refreshPayload freshId) .refreshSecretKey refreshTokenExpiry now)
            freshId name email .admin)⟩,
         logActivity auditOk audit ⟨"admin-setup", some freshId⟩⟩) := by
  constructor
  · intro st freshId name email password now a h
    simp [setupAdmin, h]
  · intro st freshId name email password now hadmin hn he hp hmail hfresh
    have hsave : saveToStore
        (st ++ [⟨freshId, name, email, bhash password, Role.admin, none⟩])
        ⟨freshId, name, email, bhash password, Role.admin,
         some (jwtSign (.refreshPayload freshId) .refreshSecretKey refreshTokenExpiry now)⟩ =
        st ++ [⟨freshId, name, email, bhash password, Role.admin,
          some (jwtSign (.refreshPayload freshId) .refreshSecretKey refreshTokenExpiry now)⟩] :=
      saveToStore_append_fresh (by intro v hv; exact hfresh v hv) rfl
    simp [setupAdmin, hadmin, hn, he, hp, hmail, newUserDoc, saveDocData, docSetRefreshToken,
      loadDoc, generateAccessToken, generateRefreshToken, hsave]

/-- Witness for C6 at concrete inputs: with an admin present the call is
rejected even with empty credentials; on an empty store it provisions and
authenticates the first administrator. -/
theorem setupAdmin_first_admin_only_witness :
    setupAdmin (fun s => s) true []
      [⟨1, "Root", "root@x.com", "pw", Role.admin, none⟩] 2 "" "" "" 0 =
      ⟨[⟨1, "Root", "root@x.com", "pw", Role.admin, none⟩],
       ⟨403, false,
        some "Admin user already exists. This endpoint is only available during initial setup.",
        some "ADMIN_EXISTS", none⟩,
       []⟩ ∧
    setupAdmin (fun s => s) true [] [] 1 "Root" "root@x.com" "pw" 0 =
      ⟨[⟨1, "Root", "root@x.com", "pw", Role.admin,
         some (jwtSign (.refreshPayload 1) .refreshSecretKey refreshTokenExpiry 0)⟩],
       ⟨201, true, some "Admin user created successfully! You are now logged in.", none,
        some (.tokens
          (jwtSign (.accessPayload 1 .admin) .jwtSecretKey accessTokenExpiry 0)
          (jwtSign (.refreshPayload 1) .refreshSecretKey refreshTokenExpiry 0)
          1 "Root" "root@x.com" .admin)⟩,
       logActivity true [] ⟨"admin-setup", some 1⟩⟩ := by
  constructor
  · exact (setupAdmin_first_admin_only (fun s => s) true []).1
      [⟨1, "Root", "root@x.com", "pw", Role.admin, none⟩] 2 "" "" "" 0
      ⟨1, "Root", "root@x.com", "pw", Role.admin, none⟩ (by decide)
  · exact (setupAdmin_first_admin_only (fun s => s) true []).2 [] 1 "Root" "root@x.com" "pw" 0
      rfl (by decide) (by decide) (by decide) rfl (by intro v hv; cases hv)

/-- Claim C1: in a reachable store, after a successful logout with a
stored refresh token, a refresh presenting the same token fails with 403
Invalid refresh token, and the authentication gate rejects the previously
issued, still validly signed and unexpired access token of that user with
401 SessionExpired, because the stored refresh token has been cleared. -/
theorem logout_revokes_session
    (bhash : String → String) (a1 a2 : Bool) (l1 l2 : List AuditEntry)
    (st : Store) (rt tok : Token) (u : User) (r : Role) (now now2 : Nat)
    (hok : StoreOk st)
    (hfind : findOneByRefreshToken st rt = some u)
    (hsec : tok.secret = .jwtSecretKey)
    (hpay : tok.payload = .accessPayload u.id r)
    (hunexp : now < tok.exp) :
    (logout bhash a1 l1 st (some rt)).resp.status = 200 ∧
    (refreshTokenOp bhash a2 l2 (logout bhash a1 l1 st (some rt)).store (some rt) now2).resp =
      ⟨403, false, some "Invalid refresh token", some "INVALID_REFRESH_TOKEN", none⟩ ∧
    authenticate (logout bhash a1 l1 st (some rt)).store (some (some tok)) now =
      .err 401 "Session expired. Please login again." "SESSION_EXPIRED" := by
  have hstore : (logout bhash a1 l1 st (some rt)).store =
      saveToStore st { u with refreshToken := none } := by
    rw [logout_success_eq bhash a1 l1 st rt u hfind]
  have hstatus : (logout bhash a1 l1 st (some rt)).resp.status = 200 := by
    rw [logout_success_eq bhash a1 l1 st rt u hfind]
  have hnone : findOneByRefreshToken (saveToStore st { u with refreshToken := none }) rt = none :=
    findOneByRefreshToken_saveToStore_none hok.2 hfind rfl (by simp)
  have hfind2 : st.find? (fun v => decide (v.refreshToken = some rt)) = some u := hfind
  have hmem : u ∈ st := List.mem_of_find?_eq_some hfind2
  have hbyid : findById (saveToStore st { u with refreshToken := none }) u.id =
      some { u with refreshToken := none } := findById_saveToStore hmem rfl
  have hne : ¬ (tok.exp ≤ now) := by omega
  have hverify : jwtVerify tok .jwtSecretKey now = .ok tok.payload := by
    simp [jwtVerify, hsec, hne]
  refine ⟨hstatus, ?_, ?_⟩
  · rw [hstore]
    simp [refreshTokenOp, hnone]
  · rw [hstore]
    simp [authenticate, hverify, hpay, JwtPayload.subjectId, hbyid]

/-- Witness for C1 at a concrete store: one user with a live session logs
out; the replayed refresh token and the still-unexpired access token are
both rejected. -/
theorem logout_revokes_session_witness :
    (logout (fun s => s) true []
      [⟨1, "Ana", "ana@x.com", "pw", Role.user,
        some ⟨.refreshPayload 1, .refreshSecretKey, 10080⟩⟩]
      (some ⟨.refreshPayload 1, .refreshSecretKey, 10080⟩)).resp.status = 200 ∧
    (refreshTokenOp (fun s => s) false []
      (logout (fun s => s) true []
        [⟨1, "Ana", "ana@x.com", "pw", Role.user,
          some ⟨.refreshPayload 1, .refreshSecretKey, 10080⟩⟩]
        (some ⟨.refreshPayload 1, .refreshSecretKey, 10080⟩)).store
      (some ⟨.refreshPayload 1, .refreshSecretKey, 10080⟩) 2).resp =
      ⟨403, false, some "Invalid refresh token", some "INVALID_REFRESH_TOKEN", none⟩ ∧
    authenticate
      (logout (fun s => s) true []
        [⟨1, "Ana", "ana@x.com", "pw", Role.user,
          some ⟨.refreshPayload 1, .refreshSecretKey, 10080⟩⟩]
        (some ⟨.refreshPayload 1, .refreshSecretKey, 10080⟩)).store
      (some (some ⟨.accessPayload 1 Role.user, .jwtSecretKey, 15⟩)) 3 =
      .err 401 "Session expired. Please login again." "SESSION_EXPIRED" :=
  logout_revokes_session (fun s => s) true false [] []
    [⟨1, "Ana", "ana@x.com", "pw", Role.user,
      some ⟨.refreshPayload 1, .refreshSecretKey, 10080⟩⟩]
    ⟨.refreshPayload 1, .refreshSecretKey, 10080⟩
    ⟨.accessPayload 1 Role.user, .jwtSecretKey, 15⟩
    ⟨1, "Ana", "ana@x.com", "pw", Role.user,
      some ⟨.refreshPayload 1, .refreshSecretKey, 10080⟩⟩
    Role.user 3 2
    (by decide) (by decide) rfl rfl (by decide)

/-- Claim C4: immediately after a successful login, a refresh presenting
the refresh token returned by that login succeeds before its expiry,
returns a fresh access token that verifies against the access secret, and
leaves the store — in particular the stored refresh token — unchanged. -/
theorem refresh_after_login_succeeds
    (bhash : String → String) (a1 a2 : Bool) (l1 l2 : List AuditEntry)
    (st : Store) (email password : String) (u : User) (t1 t2 : Nat)
    (hok : StoreOk st) (he : email ≠ "") (hp : password ≠ "")
    (hfind : findOneByEmail st email = some u)
    (hpw : comparePassword bhash u password = true)
    (hexp : t2 < t1 + refreshTokenExpiry) :
    (refreshTokenOp bhash a2 l2 (login bhash a1 l1 st email password t1).store
      (some (generateRefreshToken u t1)) t2).store =
      (login bhash a1 l1 st email password t1).store ∧
    (refreshTokenOp bhash a2 l2 (login bhash a1 l1 st email password t1).store
      (some (generateRefreshToken u t1)) t2).resp.status = 200 ∧
    (refreshTokenOp bhash a2 l2 (login bhash a1 l1 st email password t1).store
      (some (generateRefreshToken u t1)) t2).resp.data =
      some (.accessOnly (generateAccessToken u t2)) ∧
    jwtVerify (generateAccessToken u t2) .jwtSecretKey t2 =
      .ok (.accessPayload u.id u.role) := by
  have hstore : (login bhash a1 l1 st email password t1).store =
      saveToStore st { u with refreshToken := some (generateRefreshToken u t1) } := by
    rw [login_success_eq bhash a1 l1 st email password t1 u he hp hfind hpw]
  have hfind2 : st.find? (fun v => decide (v.email = email)) = some u := hfind
  have hmem : u ∈ st := List.mem_of_find?_eq_some hfind2
  have hfound : findOneByRefreshToken
      (saveToStore st { u with refreshToken := some (generateRefreshToken u t1) })
      (generateRefreshToken u t1) =
      some { u with refreshToken := some (generateRefreshToken u t1) } :=
    findOneByRefreshToken_saveToStore_self hok.2 hmem rfl rfl rfl
  have hverify := jwtVerify_generateRefreshToken u t1 t2 hexp
  refine ⟨?_, ?_, ?_, jwtVerify_generateAccessToken u t2 t2 (by unfold accessTokenExpiry; omega)⟩
  · rw [hstore]
    simp [refreshTokenOp, hfound, hverify]
  · rw [hstore]
    simp [refreshTokenOp, hfound, hverify]
  · rw [hstore]
    simp [refreshTokenOp, hfound, hverify, generateAccessToken]

/-- Witness for C4 at a concrete store: login at instant 0, refresh at
instant 10 with the returned refresh token. -/
theorem refresh_after_login_succeeds_witness :
    (refreshTokenOp (fun s => s) false []
      (login (fun s => s) true [] [⟨1, "Ana", "ana@x.com", "pw", Role.user, none⟩]
        "ana@x.com" "pw" 0).store
      (some (generateRefreshToken ⟨1, "Ana", "ana@x.com", "pw", Role.user, none⟩ 0)) 10).store =
      (login (fun s => s) true [] [⟨1, "Ana", "ana@x.com", "pw", Role.user, none⟩]
        "ana@x.com" "pw" 0).store ∧
    (refreshTokenOp (fun s => s) false []
      (login (fun s => s) true [] [⟨1, "Ana", "ana@x.com", "pw", Role.user, none⟩]
        "ana@x.com" "pw" 0).store
      (some (generateRefreshToken ⟨1, "Ana", "ana@x.com", "pw", Role.user, none⟩ 0)) 10).resp.status = 200 ∧
    (refreshTokenOp (fun s => s) false []
      (login (fun s => s) true [] [⟨1, "Ana", "ana@x.com", "pw", Role.user, none⟩]
        "ana@x.com" "pw" 0).store
      (some (generateRefreshToken ⟨1, "Ana", "ana@x.com", "pw", Role.user, none⟩ 0)) 10).resp.data =
      some (.accessOnly (generateAccessToken ⟨1, "Ana", "ana@x.com", "pw", Role.user, none⟩ 10)) ∧
    jwtVerify (generateAccessToken ⟨1, "Ana", "ana@x.com", "pw", Role.user, none⟩ 10)
      .jwtSecretKey 10 =
      .ok (.accessPayload 1 Role.user) :=
  refresh_after_login_succeeds (fun s => s) true false [] []
    [⟨1, "Ana", "ana@x.com", "pw", Role.user, none⟩] "ana@x.com" "pw"
    ⟨1, "Ana", "ana@x.com", "pw", Role.user, none⟩ 0 10
    (by decide) (by decide) (by decide) (by decide) (by decide) (by decide)

/-- Claim C2 (amended): a successful login unconditionally overwrites the
stored refresh token, so after two sequential successful logins issued at
distinct instants, a refresh presenting the first login's refresh token
fails.  The distinct-instant proviso is forced: tokens signed at the same
instant with the same payload are identical, in which case the first
token is still the stored one. -/
theorem second_login_invalidates_first_refresh
    (bhash : String → String) (a1 a2 a3 : Bool) (l1 l2 l3 : List AuditEntry)
    (st : Store) (email password : String) (u : User) (t1 t2 now : Nat)
    (hok : StoreOk st) (he : email ≠ "") (hp : password ≠ "")
    (hfind : findOneByEmail st email = some u)
    (hpw : comparePassword bhash u password = true)
    (hne : t1 ≠ t2) :
    (login bhash a2 l2 (login bhash a1 l1 st email password t1).store
      email password t2).resp.status = 200 ∧
    (refreshTokenOp bhash a3 l3
      (login bhash a2 l2 (login bhash a1 l1 st email password t1).store
        email password t2).store
      (some (generateRefreshToken u t1)) now).resp =
      ⟨403, false, some "Invalid refresh token", some "INVALID_REFRESH_TOKEN", none⟩ := by
  have hstore1 : (login bhash a1 l1 st email password t1).store =
      saveToStore st { u with refreshToken := some (generateRefreshToken u t1) } := by
    rw [login_success_eq bhash a1 l1 st email password t1 u he hp hfind hpw]
  have hfind2 : st.find? (fun v => decide (v.email = email)) = some u := hfind
  have hmem : u ∈ st := List.mem_of_find?_eq_some hfind2
  have hown1 : TokensOwned
      (saveToStore st { u with refreshToken := some (generateRefreshToken u t1) }) :=
    tokensOwned_saveToStore hok.2 (by simp [ownsStoredToken, generateRefreshToken, jwtSign])
  have hfind1 : findOneByEmail
      (saveToStore st { u with refreshToken := some (generateRefreshToken u t1) }) email =
      some { u with refreshToken := some (generateRefreshToken u t1) } :=
    findOneByEmail_saveToStore hok.1 hfind rfl rfl
  have hpw1 : comparePassword bhash
      { u with refreshToken := some (generateRefreshToken u t1) } password = true := hpw
  have hstore2 : (login bhash a2 l2
      (saveToStore st { u with refreshToken := some (generateRefreshToken u t1) })
      email password t2).store =
      saveToStore (saveToStore st { u with refreshToken := some (generateRefreshToken u t1) })
        { u with refreshToken := some (generateRefreshToken u t2) } := by
    rw [login_success_eq bhash a2 l2 _ email password t2 _ he hp hfind1 hpw1]
    rfl
  have hfound1 : findOneByRefreshToken
      (saveToStore st { u with refreshToken := some (generateRefreshToken u t1) })
      (generateRefreshToken u t1) =
      some { u with refreshToken := some (generateRefreshToken u t1) } :=
    findOneByRefreshToken_saveToStore_self hok.2 hmem rfl rfl rfl
  have hcleared : ({ u with refreshToken := some (generateRefreshToken u t2) } : User).refreshToken ≠
      some (generateRefreshToken u t1) := by
    simp only [generateRefreshToken, jwtSign, ne_eq, Option.some.injEq, Token.mk.injEq]
    intro h
    exact hne (by omega)
  have hnone : findOneByRefreshToken
      (saveToStore (saveToStore st { u with refreshToken := some (generateRefreshToken u t1) })
        { u with refreshToken := some (generateRefreshToken u t2) })
      (generateRefreshToken u t1) = none :=
    findOneByRefreshToken_saveToStore_none hown1 hfound1 rfl hcleared
  constructor
  · rw [hstore1]
    rw [login_success_eq bhash a2 l2 _ email password t2 _ he hp hfind1 hpw1]
  · rw [hstore1, hstore2]
    simp [refreshTokenOp, hnone]

/-- Counterexample to claim C2 as stated: two sequential successful logins
for the same account issued at the same instant produce byte-identical
refresh tokens, so the stored token still equals the first login's token
and a refresh presenting it succeeds (status 200) instead of failing. -/
theorem second_login_same_instant_counterexample :
    (login (fun s => s) true [] [⟨1, "Ana", "ana@x.com", "pw", Role.user, none⟩]
      "ana@x.com" "pw" 0).resp.status = 200 ∧
    (login (fun s => s) true []
      (login (fun s => s) true [] [⟨1, "Ana", "ana@x.com", "pw", Role.user, none⟩]
        "ana@x.com" "pw" 0).store "ana@x.com" "pw" 0).resp.status = 200 ∧
    (refreshTokenOp (fun s => s) true []
      (login (fun s => s) true []
        (login (fun s => s) true [] [⟨1, "Ana", "ana@x.com", "pw", Role.user, none⟩]
          "ana@x.com" "pw" 0).store "ana@x.com" "pw" 0).store
      (some (generateRefreshToken ⟨1, "Ana", "ana@x.com", "pw", Role.user, none⟩ 0))
      5).resp.status = 200 := by
  refine ⟨?_, ?_, ?_⟩ <;> decide

/-- Witness for the amended C2 at a concrete store: logins at instants 0
and 1; the refresh token issued at instant 0 is then rejected. -/
theorem second_login_invalidates_first_refresh_witness :
    (login (fun s => s) false []
      (login (fun s => s) true [] [⟨1, "Ana", "ana@x.com", "pw", Role.user, none⟩]
        "ana@x.com" "pw" 0).store "ana@x.com" "pw" 1).resp.status = 200 ∧
    (refreshTokenOp (fun s => s) true []
      (login (fun s => s) false []
        (login (fun s => s) true [] [⟨1, "Ana", "ana@x.com", "pw", Role.user, none⟩]
          "ana@x.com" "pw" 0).store "ana@x.com" "pw" 1).store
      (some (generateRefreshToken ⟨1, "Ana", "ana@x.com", "pw", Role.user, none⟩ 0)) 5).resp =
      ⟨403, false, some "Invalid refresh token", some "INVALID_REFRESH_TOKEN", none⟩ :=
  second_login_invalidates_first_refresh (fun s => s) true false true [] [] []
    [⟨1, "Ana", "ana@x.com", "pw", Role.user, none⟩] "ana@x.com" "pw"
    ⟨1, "Ana", "ana@x.com", "pw", Role.user, none⟩ 0 1 5
    (by decide) (by decide) (by decide) (by decide) (by decide) (by decide)

end AdminDashboard
